import Mathlib

/-!
Verification development for the data-classification and aggregation pipeline
of src/streamlit_app.py (Alaska solar PV and battery installation map).

Modelling conventions:
* Python and pandas cell values are modelled by PyValue (None, float NaN,
  bool, int, float, str, pandas Timestamp).  Machine floats are modelled by
  exact rationals; CSV parsing is a boundary, so a data frame arrives as a
  list of rows, each row an association list from column names to values.
* Python string operations are modelled on the underlying character lists:
  strip, lower, split and substring containment compare code points exactly
  as CPython does for the ASCII data this dashboard processes.
-/

namespace GridMap

/-- Model of a Python / pandas cell value. -/
inductive PyValue where
  | none
  | nan
  | bool (b : Bool)
  | int (n : ℤ)
  | float (q : ℚ)
  | str (s : String)
  | timestamp (year month day : ℤ)
deriving DecidableEq

/-- Pads the decimal form of an integer with leading zeros to a given width. -/
def padInt (w : ℕ) (n : ℤ) : String :=
  let s := toString n
  String.mk (List.replicate (w - s.data.length) '0') ++ s

/-- Model of the Python str() conversion on the values above.  For a
non-integral float, Python prints the shortest decimal form of the binary
double; that form is not needed downstream (the dashboard only compares the
lower-cased text with words such as yes and operating), so an exact marker
built from numerator and denominator stands in for it. -/
def pyStr : PyValue → String
  | .none => "None"
  | .nan => "nan"
  | .bool b => if b then "True" else "False"
  | .int n => toString n
  | .float q => if q.den = 1 then toString q.num ++ ".0"
      else toString q.num ++ "/" ++ toString q.den
  | .str s => s
  | .timestamp y m d => padInt 4 y ++ "-" ++ padInt 2 m ++ "-" ++ padInt 2 d ++ " 00:00:00"

/-- Model of pd.isna on scalar values. -/
def isna : PyValue → Bool
  | .none => true
  | .nan => true
  | _ => false

/-- Model of Python str.lower (ASCII case mapping). -/
def strLower (s : String) : String := String.mk (s.data.map Char.toLower)

/-- Model of Python str.strip (whitespace removed from both ends). -/
def strTrim (s : String) : String :=
  String.mk ((s.data.dropWhile Char.isWhitespace).reverse.dropWhile Char.isWhitespace).reverse

/-- Tests whether the first list is an initial segment of the second. -/
def leadMatch : List Char → List Char → Bool
  | [], _ => true
  | _ :: _, [] => false
  | a :: as, b :: bs => if a = b then leadMatch as bs else false

/-- Tests whether nd occurs as a contiguous sublist of the second argument. -/
def containsSubL (nd : List Char) : List Char → Bool
  | [] => nd.isEmpty
  | b :: bs => leadMatch nd (b :: bs) || containsSubL nd bs

/-- Model of the Python membership test needle in haystack on strings. -/
def strContains (hay nd : String) : Bool := containsSubL nd.data hay.data

/-- Tests whether any keyword of the set occurs in the text, as the generator
expressions any(keyword in text for keyword in KEYWORDS) do. -/
def containsAny (keywords : List String) (text : String) : Bool :=
  keywords.any (fun k => strContains text k)

/-- PLANNED_KEYWORDS of streamlit_app.py. -/
def PLANNED_KEYWORDS : List String :=
  ["planned", "proposed", "pending", "construction", "development", "future"]

/-- OPERATING_KEYWORDS of streamlit_app.py. -/
def OPERATING_KEYWORDS : List String :=
  ["operating", "operational", "active", "online", "in operation"]

/-- INOPERATIVE_KEYWORDS of streamlit_app.py. -/
def INOPERATIVE_KEYWORDS : List String :=
  ["inoperative", "inoperable", "out of order", "out-of-order", "out of service",
    "out-of-service", "offline", "retired", "decommissioned", "not operating",
    "not-operating", "inactive", "under repair", "down"]

/-- normalize_status of streamlit_app.py: None becomes the empty string, any
other value its stripped, lower-cased str() form. -/
def normalize_status : PyValue → String
  | .none => ""
  | v => strLower (strTrim (pyStr v))

/-- Body of classify_status, acting on the normalized text. -/
def classifyText (text : String) : String :=
  if text = "" ∨ text ∈ ["na", "n/a", "none", "unknown"] then "unknown"
  else if containsAny OPERATING_KEYWORDS text then "operating"
  else if containsAny INOPERATIVE_KEYWORDS text then "inoperative"
  else if containsAny PLANNED_KEYWORDS text then "planned"
  else "unknown"

/-- classify_status of streamlit_app.py. -/
def classify_status (value : PyValue) : String := classifyText (normalize_status value)

/-- Classification written from the words of the spec: test the keyword sets
in the precedence order operating, inoperative, planned; first match wins; no
match gives unknown. -/
def classifyTextSpec (text : String) : String :=
  if containsAny OPERATING_KEYWORDS text then "operating"
  else if containsAny INOPERATIVE_KEYWORDS text then "inoperative"
  else if containsAny PLANNED_KEYWORDS text then "planned"
  else "unknown"

/-- Spec-worded classification lifted to raw values. -/
def classifyStatusSpec (value : PyValue) : String := classifyTextSpec (normalize_status value)

/-- aggregate_status of streamlit_app.py. -/
def aggregate_status (statuses : List String) : String :=
  if statuses.isEmpty then "unknown"
  else if statuses.any (fun s => decide (s = "operating")) then "operating"
  else if statuses.any (fun s => decide (s = "inoperative")) then "inoperative"
  else if statuses.any (fun s => decide (s = "planned")) then "planned"
  else "unknown"

/-- Priority ordering named by the spec: operating > inoperative > planned >
unknown. -/
def statusPriority (s : String) : ℕ :=
  if s = "operating" then 3
  else if s = "inoperative" then 2
  else if s = "planned" then 1
  else 0

/-- The classifier only emits the four status classes. -/
theorem classifyText_mem (t : String) :
    classifyText t = "operating" ∨ classifyText t = "planned" ∨
      classifyText t = "inoperative" ∨ classifyText t = "unknown" := by
  unfold classifyText
  split_ifs <;> simp

/-- None of the keyword sets matches the empty string or a sentinel value. -/
theorem sentinel_no_keyword (t : String)
    (h : t = "" ∨ t ∈ ["na", "n/a", "none", "unknown"]) :
    containsAny OPERATING_KEYWORDS t = false ∧
      containsAny INOPERATIVE_KEYWORDS t = false ∧
      containsAny PLANNED_KEYWORDS t = false := by
  rcases h with h | h
  · subst h; decide
  · fin_cases h <;> decide

/-- The sentinel short-circuit of classify_status does not change the result
of the pure precedence description. -/
theorem classifyText_eq_spec (t : String) : classifyText t = classifyTextSpec t := by
  unfold classifyText classifyTextSpec
  by_cases h : t = "" ∨ t ∈ ["na", "n/a", "none", "unknown"]
  · obtain ⟨h1, h2, h3⟩ := sentinel_no_keyword t h
    rw [if_pos h, h1, h2, h3]
    simp
  · rw [if_neg h]

/-- Any normalized text containing an operating keyword classifies as
operating. -/
theorem classifyText_operating (t : String)
    (h : containsAny OPERATING_KEYWORDS t = true) : classifyText t = "operating" := by
  unfold classifyText
  by_cases hs : t = "" ∨ t ∈ ["na", "n/a", "none", "unknown"]
  · exact absurd h (by rw [(sentinel_no_keyword t hs).1]; simp)
  · rw [if_neg hs, if_pos h]

/-- Claim C1: classify_status always returns one of operating, planned,
inoperative, unknown; it agrees with the spec description (substring tests of
the normalized text against the fixed keyword sets in precedence order
operating, inoperative, planned, first match wins, no match gives unknown);
and any status value whose normalized text contains an operating keyword is
classified operating, regardless of case or surrounding text. -/
theorem c1_classify_status (v : PyValue) :
    (classify_status v = "operating" ∨ classify_status v = "planned" ∨
      classify_status v = "inoperative" ∨ classify_status v = "unknown") ∧
    classify_status v = classifyStatusSpec v ∧
    (containsAny OPERATING_KEYWORDS (normalize_status v) = true →
      classify_status v = "operating") :=
  ⟨classifyText_mem (normalize_status v), classifyText_eq_spec (normalize_status v),
    fun h => classifyText_operating (normalize_status v) h⟩

/-- Witness for C1 at a concrete status value with noise and mixed case. -/
theorem c1_witness :
    containsAny OPERATING_KEYWORDS
        (normalize_status (PyValue.str " Fully OPERATING since 2021 ")) = true ∧
    classify_status (PyValue.str " Fully OPERATING since 2021 ") = "operating" :=
  ⟨by decide,
    (c1_classify_status (PyValue.str " Fully OPERATING since 2021 ")).2.2 (by decide)⟩

/-- Claim C2: on a non-empty list of status classes, aggregate_status returns
a status that occurs in the list and whose priority dominates every member,
for the priority ordering operating > inoperative > planned > unknown. -/
theorem c2_aggregate_status (l : List String) (hne : l ≠ [])
    (hc : ∀ s ∈ l, s = "operating" ∨ s = "inoperative" ∨ s = "planned" ∨ s = "unknown") :
    aggregate_status l ∈ l ∧
      ∀ s ∈ l, statusPriority s ≤ statusPriority (aggregate_status l) := by
  have hne2 : ¬(l.isEmpty = true) := by simpa using hne
  unfold aggregate_status
  rw [if_neg hne2]
  by_cases h1 : l.any (fun s => decide (s = "operating")) = true
  · rw [if_pos h1]
    obtain ⟨s, hs, hd⟩ := List.any_eq_true.mp h1
    obtain rfl : s = "operating" := of_decide_eq_true hd
    refine ⟨hs, fun x hx => ?_⟩
    have hb : statusPriority x ≤ 3 := by unfold statusPriority; split_ifs <;> omega
    simpa [statusPriority] using hb
  · rw [if_neg h1]
    simp only [List.any_eq_true, decide_eq_true_eq, not_exists, not_and] at h1
    by_cases h2 : l.any (fun s => decide (s = "inoperative")) = true
    · rw [if_pos h2]
      obtain ⟨s, hs, hd⟩ := List.any_eq_true.mp h2
      obtain rfl : s = "inoperative" := of_decide_eq_true hd
      refine ⟨hs, fun x hx => ?_⟩
      have hb : statusPriority x ≤ 2 := by
        rcases hc x hx with hx2 | hx2 | hx2 | hx2 <;> subst hx2
        · exact absurd rfl (h1 _ hx)
        all_goals decide
      simpa [statusPriority] using hb
    · rw [if_neg h2]
      simp only [List.any_eq_true, decide_eq_true_eq, not_exists, not_and] at h2
      by_cases h3 : l.any (fun s => decide (s = "planned")) = true
      · rw [if_pos h3]
        obtain ⟨s, hs, hd⟩ := List.any_eq_true.mp h3
        obtain rfl : s = "planned" := of_decide_eq_true hd
        refine ⟨hs, fun x hx => ?_⟩
        have hb : statusPriority x ≤ 1 := by
          rcases hc x hx with hx2 | hx2 | hx2 | hx2 <;> subst hx2
          · exact absurd rfl (h1 _ hx)
          · exact absurd rfl (h2 _ hx)
          all_goals decide
        simpa [statusPriority] using hb
      · rw [if_neg h3]
        simp only [List.any_eq_true, decide_eq_true_eq, not_exists, not_and] at h3
        have hall : ∀ s ∈ l, s = "unknown" := by
          intro s hs
          rcases hc s hs with hx2 | hx2 | hx2 | hx2
          · exact absurd hx2 (h1 _ hs)
          · exact absurd hx2 (h2 _ hs)
          · exact absurd hx2 (h3 _ hs)
          · exact hx2
        obtain ⟨a, t, rfl⟩ := List.exists_cons_of_ne_nil hne
        refine ⟨?_, fun x hx => ?_⟩
        · have := hall a (List.mem_cons_self a t)
          rw [← this]
          exact List.mem_cons_self a t
        · rw [hall x hx]

/-- Witness for C2 at a concrete non-empty status list. -/
theorem c2_witness :
    aggregate_status ["planned", "operating", "unknown"] ∈
        (["planned", "operating", "unknown"] : List String) ∧
      ∀ s ∈ (["planned", "operating", "unknown"] : List String),
        statusPriority s ≤ statusPriority (aggregate_status ["planned", "operating", "unknown"]) :=
  c2_aggregate_status ["planned", "operating", "unknown"] (by decide) (by decide)

/-- Characterization of leadMatch as list prefixing. -/
theorem leadMatch_iff (nd l : List Char) : leadMatch nd l = true ↔ nd <+: l := by
  induction nd generalizing l with
  | nil => simp [leadMatch]
  | cons a as ih =>
      cases l with
      | nil => simp [leadMatch]
      | cons b bs =>
          by_cases hab : a = b
          · subst hab
            simp [leadMatch, ih, List.cons_prefix_cons]
          · simp [leadMatch, hab, List.cons_prefix_cons]

/-- Characterization of containsSubL as contiguous-sublist membership. -/
theorem containsSubL_iff (nd hay : List Char) : containsSubL nd hay = true ↔ nd <:+: hay := by
  induction hay with
  | nil => simp [containsSubL, List.isEmpty_iff]
  | cons b bs ih =>
      simp [containsSubL, leadMatch_iff, ih, List.infix_cons_iff]

/-- Any text containing one of the two dead inoperative keywords contains the
operating keyword as well. -/
theorem strContains_operating (t : String)
    (h : strContains t "not operating" = true ∨ strContains t "not-operating" = true) :
    containsAny OPERATING_KEYWORDS t = true := by
  have hop : ("operating".data) <:+: t.data := by
    rcases h with h | h
    · exact ((containsSubL_iff "operating".data "not operating".data).mp (by decide)).trans
        ((containsSubL_iff "not operating".data t.data).mp h)
    · exact ((containsSubL_iff "operating".data "not-operating".data).mp (by decide)).trans
        ((containsSubL_iff "not-operating".data t.data).mp h)
  exact List.any_eq_true.mpr
    ⟨"operating", by decide, (containsSubL_iff "operating".data t.data).mpr hop⟩

/-- Claim C10: the keywords not operating and not-operating belong to the
inoperative keyword set, yet classify_status maps any status text containing
either of them to operating, because the operating keywords are tested first
and operating is a substring of both; hence those two inoperative keywords can
never be the deciding match. -/
theorem c10_dead_keywords :
    "not operating" ∈ INOPERATIVE_KEYWORDS ∧
    "not-operating" ∈ INOPERATIVE_KEYWORDS ∧
    classify_status (PyValue.str "not operating") = "operating" ∧
    ∀ v : PyValue,
      (strContains (normalize_status v) "not operating" = true ∨
        strContains (normalize_status v) "not-operating" = true) →
      classify_status v = "operating" :=
  ⟨by decide, by decide, by decide,
    fun v h => classifyText_operating (normalize_status v) (strContains_operating _ h)⟩

/-- Witness for C10 at a concrete status text containing a dead keyword. -/
theorem c10_witness :
    classify_status (PyValue.str "Was NOT-OPERATING in 2020") = "operating" :=
  c10_dead_keywords.2.2.2 (PyValue.str "Was NOT-OPERATING in 2020") (Or.inr (by decide))

/-- A data frame row: an association list from column names to cell values. -/
abbrev Row := List (String × PyValue)

/-- Model of Series.get on a row: the value under the column, None when the
column is absent. -/
def rowGet : Row → String → PyValue
  | [], _ => PyValue.none
  | (k, v) :: t, key => if k = key then v else rowGet t key

/-- Tests whether a column is present in a row. -/
def rowHas : Row → String → Bool
  | [], _ => false
  | (k, _) :: t, key => if k = key then true else rowHas t key

/-- Year range test 1000 <= y <= 3000 of parse_install_year. -/
def numericYear (n : ℤ) : Option ℤ :=
  if 1000 ≤ n ∧ n ≤ 3000 then some n else Option.none

/-- Numeric value of an ASCII digit character. -/
def digitVal (c : Char) : ℤ := (c.toNat : ℤ) - 48

/-- First match of the regular expression (19|20)dd (with d a digit) scanning
the text left to right, as re.search finds the leftmost match. -/
def firstYearMatch : List Char → Option ℤ
  | c1 :: c2 :: c3 :: c4 :: rest =>
      if ((c1 = '1' ∧ c2 = '9') ∨ (c1 = '2' ∧ c2 = '0')) ∧ c3.isDigit ∧ c4.isDigit then
        some (1000 * digitVal c1 + 100 * digitVal c2 + 10 * digitVal c3 + digitVal c4)
      else firstYearMatch (c2 :: c3 :: c4 :: rest)
  | _ => Option.none

/-- parse_install_year of streamlit_app.py.  A Python bool is an int
instance, so True and False take the numeric branch with values 1 and 0. -/
def parse_install_year : PyValue → Option ℤ
  | .none => Option.none
  | .nan => Option.none
  | .timestamp y _ _ => some y
  | .bool b => numericYear (if b then 1 else 0)
  | .int n => numericYear n
  | .float q => if q.den = 1 then numericYear q.num else Option.none
  | .str s => if strTrim s = "" then Option.none else firstYearMatch (strTrim s).data

/-- Claim C6: parse_install_year returns a year exactly for a timestamp (its
year component), an integral numeric value between 1000 and 3000, or a string
whose stripped text has a first (19|20)dd match supplying the year; every
other input yields no year. -/
theorem c6_parse_install_year (v : PyValue) (y : ℤ) :
    parse_install_year v = some y ↔
      ((∃ m d, v = PyValue.timestamp y m d) ∨
        (v = PyValue.int y ∧ 1000 ≤ y ∧ y ≤ 3000) ∨
        (v = PyValue.float (y : ℚ) ∧ 1000 ≤ y ∧ y ≤ 3000) ∨
        (∃ s, v = PyValue.str s ∧ firstYearMatch (strTrim s).data = some y)) := by
  cases v with
  | none => simp [parse_install_year]
  | nan => simp [parse_install_year]
  | bool b =>
      have h0 : numericYear (if b then 1 else 0) = Option.none := by cases b <;> decide
      simp [parse_install_year, h0]
  | int n =>
      simp only [parse_install_year, numericYear]
      constructor
      · intro h
        split_ifs at h with hc
        · injection h with h
          subst h
          exact Or.inr (Or.inl ⟨rfl, hc.1, hc.2⟩)
      · rintro (⟨m, d, h⟩ | ⟨h, h1, h2⟩ | ⟨h, _, _⟩ | ⟨s, h, _⟩)
        · cases h
        · injection h with h
          subst h
          rw [if_pos ⟨h1, h2⟩]
        · cases h
        · cases h
  | float q =>
      constructor
      · intro h
        simp only [parse_install_year] at h
        split_ifs at h with hden
        · simp only [numericYear] at h
          split_ifs at h with hc
          · injection h with h
            subst h
            refine Or.inr (Or.inr (Or.inl ⟨?_, hc.1, hc.2⟩))
            rw [(Rat.den_eq_one_iff q).mp hden]
      · rintro (⟨m, d, h⟩ | ⟨h, _, _⟩ | ⟨h, h1, h2⟩ | ⟨s, h, _⟩)
        · cases h
        · cases h
        · injection h with h
          subst h
          simp [parse_install_year, numericYear, Rat.den_intCast, Rat.num_intCast, h1, h2]
        · cases h
  | str s =>
      simp only [parse_install_year]
      by_cases he : strTrim s = ""
      · rw [if_pos he]
        constructor
        · intro h; cases h
        · rintro (⟨m, d, h⟩ | ⟨h, _, _⟩ | ⟨h, _, _⟩ | ⟨s2, h, hm⟩)
          · cases h
          · cases h
          · cases h
          · injection h with h
            subst h
            rw [he] at hm
            simp [firstYearMatch] at hm
      · rw [if_neg he]
        constructor
        · intro h; exact Or.inr (Or.inr (Or.inr ⟨s, rfl, h⟩))
        · rintro (⟨m, d, h⟩ | ⟨h, _, _⟩ | ⟨h, _, _⟩ | ⟨s2, h, hm⟩)
          · cases h
          · cases h
          · cases h
          · injection h with h
            subst h
            exact hm
  | timestamp y2 m d =>
      simp only [parse_install_year]
      constructor
      · intro h
        injection h with h
        subst h
        exact Or.inl ⟨m, d, rfl⟩
      · rintro (⟨m2, d2, h⟩ | ⟨h, _, _⟩ | ⟨h, _, _⟩ | ⟨s, h, _⟩)
        · injection h with h1 h2 h3
          subst h1
          rfl
        · cases h
        · cases h
        · cases h

/-- Splitting a character list at a separator character, as Python str.split
with a one-character separator: empty input gives one empty segment, and
adjacent separators give empty segments. -/
def splitChar (sep : Char) : List Char → List (List Char)
  | [] => [[]]
  | c :: t =>
      match splitChar sep t with
      | [] => [[]]
      | h :: r => if c = sep then [] :: h :: r else (c :: h) :: r

/-- The trailing segment after the last hyphen, as split("-")[-1]. -/
def lastDashSegment (s : String) : String :=
  String.mk ((splitChar '-' s.data).getLastD [])

/-- Model of Python str.upper (ASCII case mapping). -/
def strUpper (s : String) : String := String.mk (s.data.map Char.toUpper)

/-- infer_system_type of streamlit_app.py: empty or non-string identifiers
give Unknown; otherwise the identifier is stripped, split on hyphens, and the
upper-cased last segment selects the type. -/
def infer_system_type : PyValue → String
  | .str s =>
      if s = "" then "Unknown"
      else
        if strUpper (lastDashSegment (strTrim s)) = "P" then "Solar PV"
        else if strUpper (lastDashSegment (strTrim s)) = "B" then "Battery Energy Storage"
        else "Unknown"
  | _ => "Unknown"

/-- Counterexample to claim C8 as stated: the identifier abc-p has trailing
suffix p after its last hyphen, which is neither P nor B, so the claim
predicts Unknown; the code upper-cases the suffix and returns Solar PV. -/
theorem c8_counterexample :
    lastDashSegment "abc-p" = "p" ∧ lastDashSegment "abc-p" ≠ "P" ∧
    lastDashSegment "abc-p" ≠ "B" ∧
    infer_system_type (PyValue.str "abc-p") = "Solar PV" :=
  ⟨by decide, by decide, by decide, by decide⟩

/-- Claim C8 as amended: for a non-empty identifier string the System Type is
determined by the trailing suffix after the last hyphen of the stripped
identifier, compared after upper-casing: P gives Solar PV, B gives Battery
Energy Storage, anything else gives Unknown. -/
theorem c8_infer_system_type (s : String) (hs : s ≠ "") :
    (strUpper (lastDashSegment (strTrim s)) = "P" →
      infer_system_type (PyValue.str s) = "Solar PV") ∧
    (strUpper (lastDashSegment (strTrim s)) = "B" →
      infer_system_type (PyValue.str s) = "Battery Energy Storage") ∧
    (strUpper (lastDashSegment (strTrim s)) ≠ "P" →
      strUpper (lastDashSegment (strTrim s)) ≠ "B" →
      infer_system_type (PyValue.str s) = "Unknown") := by
  simp only [infer_system_type]
  rw [if_neg hs]
  refine ⟨fun h => by rw [if_pos h], fun h => ?_, fun hp hb => ?_⟩
  · by_cases hp : strUpper (lastDashSegment (strTrim s)) = "P"
    · rw [hp] at h
      exact absurd h (by decide)
    · rw [if_neg hp, if_pos h]
  · rw [if_neg hp, if_neg hb]

/-- Witness for the amended C8 at a concrete identifier with spaces and a
lower-case suffix. -/
theorem c8_witness :
    infer_system_type (PyValue.str " ABC-2-b ") = "Battery Energy Storage" :=
  (c8_infer_system_type " ABC-2-b " (by decide)).2.1 (by decide)

variable {α : Type _}

/-- Insertion of an element into a list sorted by a boolean comparator,
before the first element it compares at-most-equal to (stable). -/
def insertLe (le : α → α → Bool) (a : α) : List α → List α
  | [] => [a]
  | b :: t => if le a b then a :: b :: t else b :: insertLe le a t

/-- Stable insertion sort by a boolean comparator: it produces the same
permutation as the stable sorts used by the pandas lexicographic multi-column
sort_values and by Python list.sort. -/
def sortLe (le : α → α → Bool) : List α → List α
  | [] => []
  | a :: t => insertLe le a (sortLe le t)

/-- Inserting is a permutation of consing. -/
theorem insertLe_perm (le : α → α → Bool) (a : α) (l : List α) :
    List.Perm (insertLe le a l) (a :: l) := by
  induction l with
  | nil => exact List.Perm.refl _
  | cons b t ih =>
      unfold insertLe
      by_cases h : le a b = true
      · rw [if_pos h]
      · rw [if_neg h]
        exact (ih.cons b).trans (List.Perm.swap a b t)

/-- Membership after insertion. -/
theorem mem_insertLe (le : α → α → Bool) (a x : α) (l : List α) :
    x ∈ insertLe le a l ↔ x = a ∨ x ∈ l := by
  rw [(insertLe_perm le a l).mem_iff, List.mem_cons]

/-- The sort is a permutation of its input. -/
theorem sortLe_perm (le : α → α → Bool) (l : List α) : List.Perm (sortLe le l) l := by
  induction l with
  | nil => exact List.Perm.refl _
  | cons a t ih => exact (insertLe_perm le a (sortLe le t)).trans (ih.cons a)

/-- Insertion preserves pairwise ordering, for a total transitive
comparator. -/
theorem pairwise_insertLe (le : α → α → Bool)
    (htot : ∀ x y, le x y = true ∨ le y x = true)
    (htrans : ∀ x y z, le x y = true → le y z = true → le x z = true)
    (a : α) : ∀ l : List α, l.Pairwise (fun x y => le x y = true) →
      (insertLe le a l).Pairwise (fun x y => le x y = true)
  | [], _ => by simp [insertLe]
  | b :: t, hl => by
      have hb := List.pairwise_cons.mp hl
      unfold insertLe
      by_cases h : le a b = true
      · rw [if_pos h]
        refine List.Pairwise.cons ?_ hl
        intro x hx
        rcases List.mem_cons.mp hx with rfl | hx2
        · exact h
        · exact htrans a b x h (hb.1 x hx2)
      · rw [if_neg h]
        have hba : le b a = true := (htot a b).resolve_left h
        refine List.Pairwise.cons ?_ (pairwise_insertLe le htot htrans a t hb.2)
        intro x hx
        rcases (mem_insertLe le a x t).mp hx with rfl | hx2
        · exact hba
        · exact hb.1 x hx2

/-- The sorted list is pairwise ordered by the comparator. -/
theorem sortLe_pairwise (le : α → α → Bool)
    (htot : ∀ x y, le x y = true ∨ le y x = true)
    (htrans : ∀ x y z, le x y = true → le y z = true → le x z = true)
    (l : List α) : (sortLe le l).Pairwise (fun x y => le x y = true) := by
  induction l with
  | nil => simp [sortLe]
  | cons a t ih => exact pairwise_insertLe le htot htrans a (sortLe le t) ih

/-- Comparator on optional integers with missing values largest, as pandas
na_position last. -/
def optIntLe : Option ℤ → Option ℤ → Bool
  | Option.none, Option.none => true
  | Option.none, some _ => false
  | some _, Option.none => true
  | some a, some b => decide (a ≤ b)

/-- Code point sequence of a string, the basis of Python string
comparison. -/
def codePoints (s : String) : List ℕ := s.data.map Char.toNat

/-- Lexicographic comparator on code point lists. -/
def natListLe : List ℕ → List ℕ → Bool
  | [], _ => true
  | _ :: _, [] => false
  | a :: as, b :: bs => if a = b then natListLe as bs else decide (a < b)

/-- Comparator on optional code point lists with missing values largest. -/
def optListLe : Option (List ℕ) → Option (List ℕ) → Bool
  | Option.none, Option.none => true
  | Option.none, some _ => false
  | some _, Option.none => true
  | some a, some b => natListLe a b

theorem natListLe_total : ∀ as bs : List ℕ, natListLe as bs = true ∨ natListLe bs as = true
  | [], _ => Or.inl rfl
  | _ :: _, [] => Or.inr rfl
  | a :: as, b :: bs => by
      by_cases hab : a = b
      · subst hab
        simpa [natListLe] using natListLe_total as bs
      · have hba : b ≠ a := fun h => hab h.symm
        rcases Nat.lt_or_ge a b with h | h
        · exact Or.inl (by simp [natListLe, hab, h])
        · have hlt : b < a := lt_of_le_of_ne h hba
          exact Or.inr (by simp [natListLe, hba, hlt])

theorem natListLe_trans : ∀ as bs cs : List ℕ, natListLe as bs = true →
    natListLe bs cs = true → natListLe as cs = true
  | [], _, _, _, _ => rfl
  | _ :: _, [], _, h, _ => by simp [natListLe] at h
  | _ :: _, _ :: _, [], _, h => by simp [natListLe] at h
  | a :: as, b :: bs, c :: cs, h1, h2 => by
      by_cases hab : a = b
      · subst hab
        by_cases hac : a = c
        · subst hac
          simp only [natListLe, if_pos rfl] at h1 h2 ⊢
          exact natListLe_trans as bs cs h1 h2
        · simp only [natListLe, if_pos rfl] at h1
          simpa [natListLe, hac] using h2
      · simp only [natListLe, if_neg hab, decide_eq_true_eq] at h1
        by_cases hbc : b = c
        · subst hbc
          simp [natListLe, hab, h1]
        · simp only [natListLe, if_neg hbc, decide_eq_true_eq] at h2
          have hac : a < c := lt_trans h1 h2
          simp [natListLe, Nat.ne_of_lt hac, hac]

theorem natListLe_antisymm : ∀ as bs : List ℕ, natListLe as bs = true →
    natListLe bs as = true → as = bs
  | [], [], _, _ => rfl
  | [], _ :: _, _, h => by simp [natListLe] at h
  | _ :: _, [], h, _ => by simp [natListLe] at h
  | a :: as, b :: bs, h1, h2 => by
      by_cases hab : a = b
      · subst hab
        simp only [natListLe, if_pos rfl] at h1 h2
        rw [natListLe_antisymm as bs h1 h2]
      · have hba : b ≠ a := fun h => hab h.symm
        simp only [natListLe, if_neg hab, decide_eq_true_eq] at h1
        simp only [natListLe, if_neg hba, decide_eq_true_eq] at h2
        omega

theorem optIntLe_total : ∀ x y : Option ℤ, optIntLe x y = true ∨ optIntLe y x = true
  | Option.none, Option.none => Or.inl rfl
  | Option.none, some _ => Or.inr rfl
  | some _, Option.none => Or.inl rfl
  | some a, some b => by
      rcases le_total a b with h | h
      · exact Or.inl (by simp [optIntLe, h])
      · exact Or.inr (by simp [optIntLe, h])

theorem optIntLe_trans : ∀ x y z : Option ℤ, optIntLe x y = true →
    optIntLe y z = true → optIntLe x z = true
  | Option.none, Option.none, _, _, h2 => h2
  | Option.none, some _, _, h1, _ => by simp [optIntLe] at h1
  | some _, Option.none, Option.none, _, _ => rfl
  | some _, Option.none, some _, _, h2 => by simp [optIntLe] at h2
  | some _, some _, Option.none, _, _ => rfl
  | some a, some b, some c, h1, h2 => by
      simp only [optIntLe, decide_eq_true_eq] at h1 h2 ⊢
      omega

theorem optIntLe_antisymm : ∀ x y : Option ℤ, optIntLe x y = true →
    optIntLe y x = true → x = y
  | Option.none, Option.none, _, _ => rfl
  | Option.none, some _, h, _ => by simp [optIntLe] at h
  | some _, Option.none, _, h => by simp [optIntLe] at h
  | some a, some b, h1, h2 => by
      simp only [optIntLe, decide_eq_true_eq] at h1 h2
      rw [le_antisymm h1 h2]

theorem optListLe_total : ∀ x y : Option (List ℕ), optListLe x y = true ∨ optListLe y x = true
  | Option.none, Option.none => Or.inl rfl
  | Option.none, some _ => Or.inr rfl
  | some _, Option.none => Or.inl rfl
  | some a, some b => natListLe_total a b

theorem optListLe_trans : ∀ x y z : Option (List ℕ), optListLe x y = true →
    optListLe y z = true → optListLe x z = true
  | Option.none, Option.none, _, _, h2 => h2
  | Option.none, some _, _, h1, _ => by simp [optListLe] at h1
  | some _, Option.none, Option.none, _, _ => rfl
  | some _, Option.none, some _, _, h2 => by simp [optListLe] at h2
  | some _, some _, Option.none, _, _ => rfl
  | some a, some b, some c, h1, h2 => natListLe_trans a b c h1 h2

theorem optListLe_antisymm : ∀ x y : Option (List ℕ), optListLe x y = true →
    optListLe y x = true → x = y
  | Option.none, Option.none, _, _ => rfl
  | Option.none, some _, h, _ => by simp [optListLe] at h
  | some _, Option.none, _, h => by simp [optListLe] at h
  | some a, some b, h1, h2 => by rw [natListLe_antisymm a b h1 h2]

/-- get_system_install_year of streamlit_app.py: the first parseable year
among the BESS and PV install date columns present in the row. -/
def get_system_install_year (row : Row) : Option ℤ :=
  match (if rowHas row "BESS Install Date" then
      parse_install_year (rowGet row "BESS Install Date") else Option.none) with
  | some y => some y
  | Option.none =>
      if rowHas row "PV Install Date" then
        parse_install_year (rowGet row "PV Install Date") else Option.none

/-- Sort key of a raw cell for the name and identifier sort columns: missing
values sort last, strings by code points exactly as pandas compares them; any
other value (absent from the real data, where these columns hold text) falls
back to its str() form so that the comparator stays total and
deterministic. -/
def cellSortKey : PyValue → Option (List ℕ)
  | .none => Option.none
  | .nan => Option.none
  | v => some (codePoints (pyStr v))

/-- The entry built for each system row inside build_project_section: the
row, its status class, and its install year. -/
def sysStatusYear (row : Row) : Row × String × Option ℤ :=
  (row, classify_status (rowGet row "System Status"), get_system_install_year row)

/-- Lexicographic comparator implementing the sort_values key of
build_project_section: install year, then System Name, then System ID
Number, missing values last in every component. -/
def sysLe (a b : Row × String × Option ℤ) : Bool :=
  if a.2.2 = b.2.2 then
    if cellSortKey (rowGet a.1 "System Name") = cellSortKey (rowGet b.1 "System Name") then
      optListLe (cellSortKey (rowGet a.1 "System ID Number"))
        (cellSortKey (rowGet b.1 "System ID Number"))
    else
      optListLe (cellSortKey (rowGet a.1 "System Name"))
        (cellSortKey (rowGet b.1 "System Name"))
  else optIntLe a.2.2 b.2.2

/-- Stable sort of system entries, as systems_df.sort_values with the three
sort columns and na_position last. -/
def sortSystems (l : List (Row × String × Option ℤ)) : List (Row × String × Option ℤ) :=
  sortLe sysLe l

theorem sysLe_total (a b : Row × String × Option ℤ) : sysLe a b = true ∨ sysLe b a = true := by
  unfold sysLe
  by_cases h1 : a.2.2 = b.2.2
  · rw [if_pos h1, if_pos h1.symm]
    by_cases h2 : cellSortKey (rowGet a.1 "System Name") = cellSortKey (rowGet b.1 "System Name")
    · rw [if_pos h2, if_pos h2.symm]
      exact optListLe_total _ _
    · rw [if_neg h2, if_neg (fun h => h2 h.symm)]
      exact optListLe_total _ _
  · rw [if_neg h1, if_neg (fun h => h1 h.symm)]
    exact optIntLe_total _ _

theorem sysLe_trans (a b c : Row × String × Option ℤ) (h1 : sysLe a b = true)
    (h2 : sysLe b c = true) : sysLe a c = true := by
  unfold sysLe at h1 h2 ⊢
  set na := cellSortKey (rowGet a.1 "System Name") with hna
  set nb := cellSortKey (rowGet b.1 "System Name") with hnb
  set nc := cellSortKey (rowGet c.1 "System Name") with hnc
  by_cases hy1 : a.2.2 = b.2.2 <;> by_cases hy2 : b.2.2 = c.2.2
  · have hy3 : a.2.2 = c.2.2 := hy1.trans hy2
    rw [if_pos hy1] at h1
    rw [if_pos hy2] at h2
    rw [if_pos hy3]
    by_cases hn1 : na = nb <;> by_cases hn2 : nb = nc
    · have hn3 : na = nc := hn1.trans hn2
      rw [if_pos hn1] at h1
      rw [if_pos hn2] at h2
      rw [if_pos hn3]
      exact optListLe_trans _ _ _ h1 h2
    · have hn3 : na ≠ nc := fun h => hn2 (hn1.symm.trans h)
      rw [if_pos hn1] at h1
      rw [if_neg hn2] at h2
      rw [if_neg hn3, hn1]
      exact h2
    · have hn3 : na ≠ nc := fun h => hn1 (h.trans hn2.symm)
      rw [if_neg hn1] at h1
      rw [if_pos hn2] at h2
      rw [if_neg hn3, ← hn2]
      exact h1
    · rw [if_neg hn1] at h1
      rw [if_neg hn2] at h2
      by_cases hn3 : na = nc
      · exfalso
        rw [hn3] at h1
        exact hn2 (optListLe_antisymm _ _ h2 h1)
      · rw [if_neg hn3]
        exact optListLe_trans _ _ _ h1 h2
  · have hy3 : a.2.2 ≠ c.2.2 := fun h => hy2 (hy1.symm.trans h)
    rw [if_pos hy1] at h1
    rw [if_neg hy2] at h2
    rw [if_neg hy3, hy1]
    exact h2
  · have hy3 : a.2.2 ≠ c.2.2 := fun h => hy1 (h.trans hy2.symm)
    rw [if_neg hy1] at h1
    rw [if_pos hy2] at h2
    rw [if_neg hy3, ← hy2]
    exact h1
  · rw [if_neg hy1] at h1
    rw [if_neg hy2] at h2
    by_cases hy3 : a.2.2 = c.2.2
    · exfalso
      rw [hy3] at h1
      exact hy2 (optIntLe_antisymm _ _ h2 h1)
    · rw [if_neg hy3]
      exact optIntLe_trans _ _ _ h1 h2

/-- Claim C5: within a project, build_project_section sorts the system
entries by the deterministic key install year, then system name, then system
identifier, with missing values placed last: sortSystems is a permutation of
its input that is pairwise ordered by that key; and on three systems with
install years 2019, missing, 2017 the output order of the years is 2017,
2019, missing. -/
theorem c5_sort_systems :
    (∀ l : List (Row × String × Option ℤ),
        List.Perm (sortSystems l) l ∧
        (sortSystems l).Pairwise (fun a b => sysLe a b = true)) ∧
    (sortSystems (([[("BESS Install Date", PyValue.int 2019)], [],
          [("BESS Install Date", PyValue.int 2017)]] : List Row).map sysStatusYear)).map
        (fun t => t.2.2) = [some 2017, some 2019, Option.none] :=
  ⟨fun l => ⟨sortLe_perm sysLe l, sortLe_pairwise sysLe sysLe_total sysLe_trans l⟩,
    by decide⟩

/-- html.escape with quote=True, applied character by character (the Python
implementation replaces sequentially starting with the ampersand, which is
equivalent to a character-wise map). -/
def escapeChar (c : Char) : String :=
  if c = '&' then "&amp;"
  else if c = '<' then "&lt;"
  else if c = '>' then "&gt;"
  else if c = '\x22' then "&quot;"
  else if c = '\x27' then "&#x27;"
  else String.mk [c]

/-- Model of html.escape. -/
def htmlEscape (s : String) : String := String.join (s.data.map escapeChar)

/-- Model of Python str.rstrip with a one-character argument. -/
def rstripChar (c : Char) (s : String) : String :=
  String.mk ((s.data.reverse.dropWhile (fun x => decide (x = c))).reverse)

/-- Nearest integer with ties to even, the rounding used by the Python fixed
format. -/
def roundHalfEven (x : ℚ) : ℤ :=
  let f : ℤ := ⌊x⌋
  if x - f < 1 / 2 then f
  else if x - f > 1 / 2 then f + 1
  else if f % 2 = 0 then f else f + 1

/-- Two-decimal fixed format of a non-negative rational. -/
def formatFixed2Pos (q : ℚ) : String :=
  let n := roundHalfEven (q * 100)
  toString (n / 100) ++ "." ++
    (if n % 100 < 10 then "0" ++ toString (n % 100) else toString (n % 100))

/-- Model of the Python format specifier with two decimals: format of the
absolute value behind the sign, half-even rounding.  The exact decimal value
stands in for the binary double. -/
def formatFixed2 (q : ℚ) : String :=
  if q < 0 then "-" ++ formatFixed2Pos (-q) else formatFixed2Pos q

/-- format_value of streamlit_app.py: None and NaN give nothing, a timestamp
its date, a bool Yes or No, an integral number its integer form, any other
float the two-decimal form with trailing zeros and dot stripped, and a string
its stripped text when non-empty. -/
def format_value : PyValue → Option String
  | .none => Option.none
  | .nan => Option.none
  | .timestamp y m d => some (padInt 4 y ++ "-" ++ padInt 2 m ++ "-" ++ padInt 2 d)
  | .bool b => some (if b then "Yes" else "No")
  | .int n => some (toString n)
  | .float q =>
      some (if q.den = 1 then toString q.num
        else rstripChar '.' (rstripChar '0' (formatFixed2 q)))
  | .str s => if strTrim s = "" then Option.none else some (strTrim s)

/-- format_value_or_unknown of streamlit_app.py. -/
def format_value_or_unknown (v : PyValue) : String := (format_value v).getD "Unknown"

/-- BASE_FIELDS of streamlit_app.py (the misspelling of the funding column
name is in the source). -/
def BASE_FIELDS : List (String × String) :=
  [("Enables Diesels-Off", "Enables Diesels-Off (yes/no)"),
    ("Supports Diesels-Off", "Supports Diesels-Off (yes/no)"),
    ("Funding Announcement", "Funding Anncouncement Number"),
    ("Award Number", "Award Number")]

/-- PV_CAPACITY_FIELDS of streamlit_app.py. -/
def PV_CAPACITY_FIELDS : List (String × String) :=
  [("PV DC Capacity (kWdc)", "PV DC Capacity (kWdc)"),
    ("PV AC Capacity (kWac)", "PV AC Capacity (kWac)")]

/-- PV_ADDITIONAL_FIELDS of streamlit_app.py. -/
def PV_ADDITIONAL_FIELDS : List (String × String) :=
  [("Number of PV Modules", "Number of PV Modules"),
    ("PV Module Manufacturer", "PV Module Manufacturer"),
    ("PV Module Model", "PV Module Model"),
    ("PV Inverter Manufacturer", "PV Inverter Manufacturer"),
    ("PV Inverter Model", "PV Inverter Model"),
    ("PV Installation Manager", "PV Installation Manager"),
    ("PV Owner", "PV Owner"),
    ("PV Ownership Structure", "PV Ownership Structure")]

/-- BESS_CAPACITY_FIELDS of streamlit_app.py. -/
def BESS_CAPACITY_FIELDS : List (String × String) :=
  [("Capacity (kWh)", "BESS Capacity (kWh)"),
    ("Throughput (kW)", "BESS Throughput (kW)")]

/-- BESS_EQUIPMENT_FIELDS of streamlit_app.py. -/
def BESS_EQUIPMENT_FIELDS : List (String × String) :=
  [("Manufacturer", "BESS Manufacturer"),
    ("Model", "BESS Model"),
    ("Inverter Manufacturer", "BESS Inverter Manufacturer"),
    ("Inverter Model", "BESS Inverter Model")]

/-- BESS_OWNERSHIP_FIELDS of streamlit_app.py. -/
def BESS_OWNERSHIP_FIELDS : List (String × String) :=
  [("Owner", "BESS Owner"),
    ("Installation Manager", "BESS Installation Manager")]

/-- BESS_OTHER_FIELDS of streamlit_app.py. -/
def BESS_OTHER_FIELDS : List (String × String) :=
  [("Ownership Structure", "BESS Ownership Structure")]

/-- COLOR_SCALE of streamlit_app.py, as a partial lookup. -/
def COLOR_SCALE : String → Option (List ℕ)
  | "diesels_off_operating" => some [34, 139, 34, 220]
  | "diesels_off_planned" => some [255, 165, 0, 220]
  | "non_diesels_off_operating" => some [65, 105, 225, 220]
  | "non_diesels_off_planned" => some [120, 120, 120, 220]
  | _ => Option.none

/-- One entry of the STATUS_META table. -/
structure StatusMeta where
  icon : String
  label_text : String
  system_background : String
  project_background : String
  border : String
  project_border : String
  label_background : String
  label_color : String
deriving DecidableEq

/-- Operating entry of STATUS_META. -/
def operatingMeta : StatusMeta :=
  ⟨"✅", "Operating", "#eef8f0", "#e6f3e9", "#9acb9a", "#82b77a", "#dff1e0", "#2f6d34"⟩

/-- Planned entry of STATUS_META. -/
def plannedMeta : StatusMeta :=
  ⟨"⚠️", "Planned", "#fff8e1", "#fff3cd", "#e7c66a", "#d5b34c", "#fef3c7", "#8a6d1a"⟩

/-- Inoperative entry of STATUS_META. -/
def inoperativeMeta : StatusMeta :=
  ⟨"🚫", "Inoperative", "#fdecea", "#f9e0dc", "#f1998d", "#dd8275", "#f8d7da", "#a13232"⟩

/-- Unknown entry of STATUS_META. -/
def unknownMeta : StatusMeta :=
  ⟨"ℹ️", "Status Unknown", "#f5f6f8", "#f0f2f5", "#cfd6e0", "#b9c2d0", "#e6e9f0", "#4a5568"⟩

/-- STATUS_META of streamlit_app.py. -/
def STATUS_META : String → Option StatusMeta
  | "operating" => some operatingMeta
  | "planned" => some plannedMeta
  | "inoperative" => some inoperativeMeta
  | "unknown" => some unknownMeta
  | _ => Option.none

/-- get_status_meta of streamlit_app.py: lookup with the unknown entry as
default. -/
def get_status_meta (status_class : String) : StatusMeta :=
  (STATUS_META status_class).getD unknownMeta

/-- Default empty message of build_list_items. -/
def defaultEmptyMessage : String := "<li>No additional parameters available</li>"

/-- build_list_items of streamlit_app.py. -/
def build_list_items (pairs : List (String × PyValue)) (empty_message : String) : String :=
  let items := pairs.filterMap (fun p =>
    match format_value p.2 with
    | some v => some ("<li><span style=\x27font-weight:500;color:#1f2a44;\x27>"
        ++ htmlEscape p.1 ++ ":</span> " ++ htmlEscape v ++ "</li>")
    | Option.none => Option.none)
  if items.isEmpty then empty_message else String.join items

/-- build_status_badge of streamlit_app.py. -/
def build_status_badge (status_class : String) : String :=
  let meta := get_status_meta status_class
  "<span style=\x27display:inline-flex;align-items:center;gap:4px;padding:2px 8px;border-radius:999px;"
    ++ "background:" ++ meta.label_background ++ ";color:" ++ meta.label_color
    ++ ";font-size:11px;font-weight:600;\x27>"
    ++ meta.icon ++ " " ++ meta.label_text ++ "</span>"

/-- format_install_year_text of streamlit_app.py (years arrive already
normalized to integers in this model). -/
def format_install_year_text (year : Option ℤ) (status_class : String) : String :=
  match year with
  | some y => toString y
  | Option.none => if status_class = "planned" then "TBD" else "Unknown"

/-- build_year_badge of streamlit_app.py. -/
def build_year_badge (text : String) : String :=
  "<div style=\x27display:inline-block;padding:2px 6px;border-radius:6px;background:#eef1f6;"
    ++ "color:#2f3b52;font-size:11px;font-weight:600;letter-spacing:0.02em;\x27>"
    ++ htmlEscape text ++ "</div>"

/-- build_info_group of streamlit_app.py. -/
def build_info_group (title : String) (items : List (String × String)) : String :=
  let cells := items.map (fun p =>
    "<div style=\x27padding:6px 8px;border-radius:8px;background:rgba(255,255,255,0.75);"
      ++ "border:1px solid rgba(15,23,42,0.08);\x27>"
      ++ "<div style=\x27font-size:10px;font-weight:600;text-transform:uppercase;color:#4a5b75;letter-spacing:0.04em;\x27>"
      ++ htmlEscape p.1 ++ "</div>"
      ++ "<div style=\x27font-size:12px;color:#102a43;margin-top:4px;\x27>"
      ++ htmlEscape p.2 ++ "</div>"
      ++ "</div>")
  "<div style=\x27margin-bottom:8px;padding:8px;border-radius:10px;background:rgba(15,23,42,0.04);\x27>"
    ++ "<div style=\x27font-size:11px;font-weight:600;color:#0b3954;margin-bottom:6px;text-transform:uppercase;letter-spacing:0.04em;\x27>"
    ++ htmlEscape title ++ "</div>"
    ++ "<div style=\x27display:grid;grid-template-columns:repeat(auto-fit,minmax(140px,1fr));gap:6px;\x27>"
    ++ String.join cells ++ "</div>" ++ "</div>"

/-- build_bess_detail_html of streamlit_app.py. -/
def build_bess_detail_html (row : Row) (base_pairs : List (String × PyValue)) : String :=
  let capacity_html := build_info_group "Capacity & Throughput"
    (BESS_CAPACITY_FIELDS.map (fun lc => (lc.1, format_value_or_unknown (rowGet row lc.2))))
  let equipment_html := build_info_group "Equipment"
    (BESS_EQUIPMENT_FIELDS.map (fun lc => (lc.1, format_value_or_unknown (rowGet row lc.2))))
  let ownership_html := build_info_group "Ownership"
    (BESS_OWNERSHIP_FIELDS.map (fun lc => (lc.1, format_value_or_unknown (rowGet row lc.2))))
  let other_pairs := base_pairs ++ BESS_OTHER_FIELDS.map (fun lc => (lc.1, rowGet row lc.2))
  let other_list_items := build_list_items other_pairs ""
  let other_html :=
    if other_list_items = "" then ""
    else "<ul style=\x27margin:8px 0 0;padding-left:16px;font-size:12px;line-height:1.45;\x27>"
      ++ other_list_items ++ "</ul>"
  capacity_html ++ equipment_html ++ ownership_html ++ other_html

/-- build_pv_detail_html of streamlit_app.py. -/
def build_pv_detail_html (row : Row) (base_pairs : List (String × PyValue)) : String :=
  let capacity_html := build_info_group "Capacity (DC & AC)"
    (PV_CAPACITY_FIELDS.map (fun lc => (lc.1, format_value_or_unknown (rowGet row lc.2))))
  let parameter_pairs := PV_ADDITIONAL_FIELDS.map (fun lc => (lc.1, rowGet row lc.2))
  let details_html :=
    "<ul style=\x27margin:8px 0 0;padding-left:16px;font-size:12px;line-height:1.45;\x27>"
      ++ build_list_items (base_pairs ++ parameter_pairs) defaultEmptyMessage ++ "</ul>"
  capacity_html ++ details_html

/-- build_system_section of streamlit_app.py (its stray quote in the outer
div style attribute is reproduced verbatim). -/
def build_system_section (row : Row) (status_class : String) (install_year : Option ℤ) : String :=
  let system_type := rowGet row "System Type"
  let system_name := format_value (rowGet row "System Name")
  let system_type_label := format_value system_type
  let heading0 :=
    match system_name with
    | some n => n
    | Option.none =>
        match system_type_label with
        | some t2 => t2
        | Option.none => "System Details"
  let emojiLead :=
    if system_type = PyValue.str "Battery Energy Storage" then "🔋 "
    else if system_type = PyValue.str "Solar PV" then "☀️ "
    else ""
  let heading := emojiLead ++ heading0
  let meta := get_status_meta status_class
  let badge_html := build_status_badge status_class
  let install_year_badge := build_year_badge (format_install_year_text install_year status_class)
  let base_pairs := BASE_FIELDS.map (fun lc => (lc.1, rowGet row lc.2))
  let detail_content :=
    if system_type = PyValue.str "Battery Energy Storage" then build_bess_detail_html row base_pairs
    else if system_type = PyValue.str "Solar PV" then build_pv_detail_html row base_pairs
    else
      "<ul style=\x27margin:4px 0 0;padding-left:16px;font-size:12px;line-height:1.45;\x27>"
        ++ build_list_items base_pairs defaultEmptyMessage ++ "</ul>"
  "<div style=\x27padding:8px;border-radius:10px;box-shadow:0 1px 2px rgba(15,23,42,0.08);\x27"
    ++ "border:1px solid " ++ meta.border ++ ";background:" ++ meta.system_background ++ ";\x27>"
    ++ "<div style=\x27display:flex;align-items:center;justify-content:space-between;margin-bottom:4px;gap:6px;\x27>"
    ++ "<div style=\x27font-weight:600;font-size:13px;color:#0b3954;\x27>" ++ htmlEscape heading ++ "</div>"
    ++ badge_html ++ "</div>"
    ++ "<div style=\x27margin-bottom:6px;\x27>" ++ install_year_badge ++ "</div>"
    ++ detail_content ++ "</div>"

/-- Minimum of a list of integers, as Series.min on the defined years. -/
def minListInt : List ℤ → Option ℤ
  | [] => Option.none
  | a :: t =>
      match minListInt t with
      | Option.none => some a
      | some m => some (min a m)

/-- build_project_section of streamlit_app.py, acting on the rows of one
project group (groups produced by groupby are never empty; the model reads
the first row with a default for totality). -/
def build_project_section (rows : List Row) : String :=
  let header := (format_value (rowGet (rows.headD []) "Project Name")).getD "Project"
  let sorted := sortSystems (rows.map sysStatusYear)
  let project_status := aggregate_status (sorted.map (fun t => t.2.1))
  let project_meta := get_status_meta project_status
  let project_year := minListInt (sorted.filterMap (fun t => t.2.2))
  let project_year_badge := build_year_badge (format_install_year_text project_year project_status)
  let system_sections := sorted.map (fun t => build_system_section t.1 t.2.1 t.2.2)
  let systems_html :=
    if system_sections.isEmpty then
      "<div style=\x27font-size:12px;color:#5f6c7b;\x27>No system details available for this project.</div>"
    else
      "<div style=\x27display:flex;flex-direction:column;gap:6px;\x27>"
        ++ String.join system_sections ++ "</div>"
  let container_style :=
    "flex:1 1 250px;min-width:230px;max-width:300px;border-radius:10px;"
      ++ "border:1px solid " ++ project_meta.project_border ++ ";"
      ++ "background:" ++ project_meta.project_background ++ ";"
      ++ "box-shadow:0 1px 3px rgba(15,23,42,0.08);padding:10px;box-sizing:border-box;"
  "<div style=\x22" ++ container_style ++ "\x22>"
    ++ "<div style=\x27display:flex;align-items:center;justify-content:space-between;margin-bottom:4px;gap:6px;\x27>"
    ++ "<div style=\x27font-size:15px;font-weight:700;color:#0b3954;\x27>" ++ htmlEscape header ++ "</div>"
    ++ build_status_badge project_status
    ++ "</div>"
    ++ "<div style=\x27margin-bottom:6px;\x27>" ++ project_year_badge ++ "</div>"
    ++ systems_html ++ "</div>"

/-- Distinct values in order of first occurrence (helper of the groupby
model). -/
def dedupAux : List PyValue → List PyValue → List PyValue
  | [], _ => []
  | a :: t, seen => if a ∈ seen then dedupAux t seen else a :: dedupAux t (a :: seen)

/-- Distinct values of a list, first occurrences kept. -/
def dedupPV (l : List PyValue) : List PyValue := dedupAux l []

/-- Rank ordering cell values of different constructors; pandas sorts group
keys, which in the real data all come from one column type.  None and NaN
rank last, matching pandas placing missing keys last when dropna=False. -/
def pvRank : PyValue → ℕ
  | .bool _ => 0
  | .int _ => 1
  | .float _ => 2
  | .timestamp .. => 3
  | .str _ => 4
  | .none => 5
  | .nan => 6

/-- Deterministic total comparator on cell values used to sort group keys:
strings by code points, numbers by value, otherwise by rank. -/
def pvLeB (a b : PyValue) : Bool :=
  match a, b with
  | .str s, .str t2 => natListLe (codePoints s) (codePoints t2)
  | .int m, .int n => decide (m ≤ n)
  | .float p, .float q => decide (p ≤ q)
  | .bool x, .bool y => !x || y
  | .timestamp y1 m1 d1, .timestamp y2 m2 d2 =>
      if y1 = y2 then (if m1 = m2 then decide (d1 ≤ d2) else decide (m1 ≤ m2))
      else decide (y1 ≤ y2)
  | x, y => decide (pvRank x ≤ pvRank y)

/-- Model of DataFrame.groupby on a key function: keys sorted (the pandas
sort=True default), each group keeping the original row order; with dropna
set, rows with a missing key are skipped. -/
def groupByKey (dropna : Bool) (key : Row → PyValue) (rows : List Row) :
    List (PyValue × List Row) :=
  let keyRows := if dropna then rows.filter (fun r => !(isna (key r))) else rows
  let keys := sortLe pvLeB (dedupPV (keyRows.map key))
  keys.map (fun k => (k, keyRows.filter (fun r => decide (key r = k))))

/-- Sort key of the project groups inside build_tooltip_html: named projects
first by case-folded name, then unnamed ones by the formatted project id
(case folding is modelled by the ASCII lower-case map). -/
def tooltip_sort_key (kg : PyValue × List Row) : ℕ × String :=
  match format_value (rowGet (kg.2.headD []) "Project Name") with
  | some name => (0, strLower name)
  | Option.none => (1, strLower ((format_value kg.1).getD ""))

/-- Comparator realizing the Python tuple order on tooltip sort keys. -/
def tooltipGroupLe (a b : PyValue × List Row) : Bool :=
  if (tooltip_sort_key a).1 = (tooltip_sort_key b).1 then
    natListLe (codePoints (tooltip_sort_key a).2) (codePoints (tooltip_sort_key b).2)
  else decide ((tooltip_sort_key a).1 ≤ (tooltip_sort_key b).1)

/-- build_tooltip_html of streamlit_app.py: group the community rows by
project id (missing ids form their own group, dropna=False), order the
groups by the sort key (Python list.sort is stable, as is sortLe), and wrap
the project sections. -/
def build_tooltip_html (community : String) (rows : List Row) : String :=
  let project_groups := groupByKey false (fun r => rowGet r "Project ID Number") rows
  let sorted_groups := sortLe tooltipGroupLe project_groups
  let project_sections := sorted_groups.map (fun kg => build_project_section kg.2)
  let projects_html :=
    if project_sections.isEmpty then
      "<div style=\x27font-size:12px;color:#5f6c7b;\x27>No project details available.</div>"
    else
      "<div style=\x27display:flex;flex-wrap:wrap;gap:10px;align-items:stretch;\x27>"
        ++ String.join project_sections ++ "</div>"
  "<div style=\x22min-width:300px;max-width:680px;font-family:Roboto,Arial,sans-serif;\x22>"
    ++ "<div style=\x27font-size:16px;font-weight:700;margin-bottom:6px;color:#0b3954;\x27>"
    ++ htmlEscape community ++ "</div>"
    ++ projects_html ++ "</div>"

/-- Normalized diesels-off flag of a row: astype(str), stripped, lowered. -/
def enablesNorm (r : Row) : String :=
  strLower (strTrim (pyStr (rowGet r "Enables Diesels-Off (yes/no)")))

/-- Normalized status text of a row: astype(str), stripped, lowered. -/
def statusNorm (r : Row) : String :=
  strLower (strTrim (pyStr (rowGet r "System Status")))

/-- determine_color_category of streamlit_app.py, with its condition frame
modelled by zipping the two normalized columns. -/
def determine_color_category (group : List Row) : String :=
  let pairs := (group.map enablesNorm).zip (group.map statusNorm)
  if !pairs.isEmpty then
    if pairs.any (fun p => decide (p.2 = "operating") && decide (p.1 = "yes")) then
      "diesels_off_operating"
    else if pairs.any (fun p => decide (p.1 = "yes")) then "diesels_off_planned"
    else if pairs.any (fun p => decide (p.2 = "operating")) then "non_diesels_off_operating"
    else "non_diesels_off_planned"
  else "non_diesels_off_planned"

/-- Color category written from the words of the spec: the four membership
tests evaluated in order on the rows of the group. -/
def determineColorCategorySpec (group : List Row) : String :=
  if group.any (fun r => decide (statusNorm r = "operating") && decide (enablesNorm r = "yes")) then
    "diesels_off_operating"
  else if group.any (fun r => decide (enablesNorm r = "yes")) then "diesels_off_planned"
  else if group.any (fun r => decide (statusNorm r = "operating")) then "non_diesels_off_operating"
  else "non_diesels_off_planned"

/-- Claim C3: determine_color_category chooses the category by testing, in
order, a member that is both operating and diesels-off-enabled, then any
diesels-off-enabled member, then any operating member, with the planned
non-diesels-off category as fallback: the code agrees with that description
on every group. -/
theorem c3_determine_color_category (group : List Row) :
    determine_color_category group = determineColorCategorySpec group := by
  unfold determine_color_category determineColorCategorySpec
  rw [List.zip_map']
  cases group with
  | nil => rfl
  | cons a t => simp [List.any_map, Function.comp_def]

/-- The example row of the spec, with the column names of the real data. -/
def c7row : Row :=
  [("System ID Number", PyValue.str "ABC-1-P"),
    ("System Status", PyValue.str "Operating"),
    ("Enables Diesels-Off (yes/no)", PyValue.str "yes"),
    ("Longitude", PyValue.float (-150)),
    ("Latitude", PyValue.float 64)]

/-- Model of DataFrame column assignment: replace the column or append it. -/
def rowSet (r : Row) (k : String) (v : PyValue) : Row :=
  (r.filter (fun p => decide (p.1 ≠ k))) ++ [(k, v)]

/-- load_data of streamlit_app.py after pd.read_csv (file reading is the
boundary): derive the System Type column from the System ID Number column. -/
def load_data (df : List Row) : List Row :=
  df.map (fun r =>
    rowSet r "System Type" (PyValue.str (infer_system_type (rowGet r "System ID Number"))))

/-- Claim C7: on the example row with id ABC-1-P, status Operating,
diesels-off yes and coordinates, the pipeline derives System Type Solar PV,
status class operating, color category diesels_off_operating, and the pin
color 34 139 34 220. -/
theorem c7_end_to_end :
    (load_data [c7row]).map (fun r => rowGet r "System Type") = [PyValue.str "Solar PV"] ∧
    classify_status (rowGet c7row "System Status") = "operating" ∧
    determine_color_category (load_data [c7row]) = "diesels_off_operating" ∧
    (COLOR_SCALE "diesels_off_operating").getD [120, 120, 120, 220] = [34, 139, 34, 220] :=
  ⟨by decide, by decide, by decide, by decide⟩

/-- One record of the map data built per community. -/
structure CommunityRecord where
  community : String
  longitude : ℚ
  latitude : ℚ
  color : List ℕ
  tooltip_html : String
  label : String
  category : String
  detail_url : String
deriving DecidableEq

/-- Rows with both coordinates present: the dropna of the two-column
coordinate frame. -/
def validCoords (g : List Row) : List Row :=
  g.filter (fun r => !(isna (rowGet r "Longitude")) && !(isna (rowGet r "Latitude")))

/-- Arithmetic mean of a list of rationals, as Series.mean on values without
missing entries. -/
def ratMean (l : List ℚ) : ℚ := l.sum / (l.length : ℚ)

/-- Model of astype(float) on a cell; the coordinate columns are numeric
after CSV loading (astype raises on other values, which therefore do not
occur here). -/
def pyFloat : PyValue → ℚ
  | .int n => (n : ℚ)
  | .float q => q
  | .bool b => if b then 1 else 0
  | _ => 0

/-- UTF-8 bytes of a character. -/
def utf8Bytes (c : Char) : List ℕ :=
  let n := c.toNat
  if n < 128 then [n]
  else if n < 2048 then [192 + n / 64, 128 + n % 64]
  else if n < 65536 then [224 + n / 4096, 128 + (n / 64) % 64, 128 + n % 64]
  else [240 + n / 262144, 128 + (n / 4096) % 64, 128 + (n / 64) % 64, 128 + n % 64]

/-- Upper-case hexadecimal digits. -/
def hexDigits : List Char :=
  ['0', '1', '2', '3', '4', '5', '6', '7', '8', '9', 'A', 'B', 'C', 'D', 'E', 'F']

/-- Percent-encoding of one byte. -/
def byteHex (b : ℕ) : String :=
  String.mk ['%', hexDigits.getD (b / 16) '0', hexDigits.getD (b % 16) '0']

/-- urllib quote_plus: ASCII alphanumerics and underscore, dot, hyphen,
tilde stay, a space becomes a plus, anything else is percent-encoded from its
UTF-8 bytes. -/
def quotePlusChar (c : Char) : String :=
  if c = ' ' then "+"
  else if c.isAlphanum ∨ c = '_' ∨ c = '.' ∨ c = '-' ∨ c = '~' then String.mk [c]
  else String.join ((utf8Bytes c).map byteHex)

/-- quote_plus on a string. -/
def quote_plus (s : String) : String := String.join (s.data.map quotePlusChar)

/-- Python str.join with a separator. -/
def joinSep (sep : String) : List String → String
  | [] => ""
  | [a] => a
  | a :: b :: t => a ++ sep ++ joinSep sep (b :: t)

/-- The record built for one community group inside create_community_records;
nothing when the group has no row with valid coordinates (the continue
branch). -/
def mkCommunityRecord (kg : PyValue × List Row) : Option CommunityRecord :=
  if (validCoords kg.2).isEmpty then Option.none
  else
    let lon := ratMean ((validCoords kg.2).map (fun row => pyFloat (rowGet row "Longitude")))
    let lat := ratMean ((validCoords kg.2).map (fun row => pyFloat (rowGet row "Latitude")))
    let has_pv := kg.2.any (fun r => decide (rowGet r "System Type" = PyValue.str "Solar PV"))
    let has_bess := kg.2.any (fun r =>
      decide (rowGet r "System Type" = PyValue.str "Battery Energy Storage"))
    let icon_list := (if has_pv then ["☀️"] else []) ++ (if has_bess then ["🔋"] else [])
    let icon_suffix := if icon_list.isEmpty then "" else " " ++ joinSep " " icon_list
    let category := determine_color_category kg.2
    some ⟨pyStr kg.1, lon, lat, (COLOR_SCALE category).getD [120, 120, 120, 220],
      build_tooltip_html (pyStr kg.1) kg.2, pyStr kg.1 ++ icon_suffix, category,
      "?community=" ++ quote_plus (pyStr kg.1)⟩

/-- The community groups of a frame: groupby Community Name with dropna. -/
def communityGroups (df : List Row) : List (PyValue × List Row) :=
  groupByKey true (fun r => rowGet r "Community Name") df

/-- create_community_records of streamlit_app.py. -/
def create_community_records (df : List Row) : List CommunityRecord :=
  (communityGroups df).filterMap mkCommunityRecord

/-- The head of a non-empty list with a default is a member. -/
theorem headD_mem_of_ne_nil (l : List α) (d : α) (h : l ≠ []) : l.headD d ∈ l := by
  cases l with
  | nil => exact absurd rfl h
  | cons a t => exact List.mem_cons_self a t

/-- Length of a filterMap as a filter count. -/
theorem length_filterMap_eq {β : Type _} (f : α → Option β) (l : List α) :
    (l.filterMap f).length = (l.filter (fun a => (f a).isSome)).length := by
  induction l with
  | nil => rfl
  | cons a t ih =>
      cases h : f a <;> simp [List.filterMap_cons, List.filter_cons, h, ih]

/-- Claim C4: every record produced by create_community_records comes from a
community group, its longitude and latitude equal the arithmetic means of the
coordinates over exactly the member rows with valid coordinates (a non-empty
set), and the number of records equals the number of groups having at least
one valid-coordinate row, so a community whose rows all lack coordinates is
excluded from the output entirely. -/
theorem c4_create_community_records (df : List Row) :
    (∀ r ∈ create_community_records df,
        ∃ kg ∈ communityGroups df,
          r.community = pyStr kg.1 ∧
          validCoords kg.2 ≠ [] ∧
          r.longitude =
            ratMean ((validCoords kg.2).map (fun row => pyFloat (rowGet row "Longitude"))) ∧
          r.latitude =
            ratMean ((validCoords kg.2).map (fun row => pyFloat (rowGet row "Latitude")))) ∧
    (create_community_records df).length =
      ((communityGroups df).filter (fun kg => !(validCoords kg.2).isEmpty)).length := by
  constructor
  · intro r hr
    obtain ⟨kg, hkg, hmk⟩ := List.mem_filterMap.mp hr
    refine ⟨kg, hkg, ?_⟩
    unfold mkCommunityRecord at hmk
    by_cases h : (validCoords kg.2).isEmpty
    · rw [if_pos h] at hmk
      cases hmk
    · rw [if_neg h] at hmk
      obtain rfl := Option.some.inj hmk
      exact ⟨rfl, by simpa [List.isEmpty_iff] using h, rfl, rfl⟩
  · unfold create_community_records
    rw [length_filterMap_eq]
    apply congrArg
    apply List.filter_congr
    intro kg _
    unfold mkCommunityRecord
    by_cases h : (validCoords kg.2).isEmpty
    · rw [if_pos h]
      simp [h]
    · rw [if_neg h]
      simp [h]

/-- A concrete frame with two communities, one of them without any
coordinates. -/
def c4df : List Row :=
  [[("Community Name", PyValue.str "Akutan"), ("Longitude", PyValue.float (-165)),
      ("Latitude", PyValue.float 54), ("System ID Number", PyValue.str "AKU-1-P"),
      ("System Status", PyValue.str "Operating")],
    [("Community Name", PyValue.str "Barrow")]]

/-- Default record used only to read the head of the output list. -/
def c4defaultRec : CommunityRecord := ⟨"", 0, 0, [], "", "", "", ""⟩

/-- Witness for C4 on the concrete frame: the first produced record carries
the mean coordinates of the valid rows of its group. -/
theorem c4_witness :
    ∃ kg ∈ communityGroups c4df,
      ((create_community_records c4df).headD c4defaultRec).community = pyStr kg.1 ∧
      validCoords kg.2 ≠ [] ∧
      ((create_community_records c4df).headD c4defaultRec).longitude =
        ratMean ((validCoords kg.2).map (fun row => pyFloat (rowGet row "Longitude"))) ∧
      ((create_community_records c4df).headD c4defaultRec).latitude =
        ratMean ((validCoords kg.2).map (fun row => pyFloat (rowGet row "Latitude"))) :=
  (c4_create_community_records c4df).1
    ((create_community_records c4df).headD c4defaultRec)
    (headD_mem_of_ne_nil _ _ (by decide))

/-- The aggregation and rendering pipeline on loaded data: the community
records with their tooltip markup, keyed by community. -/
def pipelineTooltips (df : List Row) : List (String × String) :=
  (create_community_records (load_data df)).map (fun r => (r.community, r.tooltip_html))

/-- Claim C9: the pipeline is a pure function of the input frame, so two runs
on identical input data produce byte-identical tooltip markup for every
community. -/
theorem c9_deterministic (df1 df2 : List Row) (h : df1 = df2) :
    pipelineTooltips df1 = pipelineTooltips df2 := by rw [h]

/-- Witness for C9: two runs on the concrete example frame. -/
theorem c9_witness : pipelineTooltips c4df = pipelineTooltips c4df :=
  c9_deterministic c4df c4df rfl

end GridMap
